import Mathlib

attribute [local semireducible] Rat.mul Rat.inv Rat.add Rat.sub

/-!
Verification development for the LokiAI portfolio rebalancer core.

The definitions below are a shallow embedding of the Python sources
`portfolio_rebalancer/rebalance_engine.py`,
`portfolio_rebalancer/portfolio_analyzer.py` and
`portfolio_rebalancer/mongo_client.py`.  Python floats are modelled as
rationals, Python dicts (which are insertion ordered) as association
lists, and the asynchronous collaborators (trade execution, the price
HTTP call, MongoDB) as explicit inputs describing their outcomes.
-/

namespace PortfolioRebalancer

/-- Asset record as consumed by the rebalance engine.  The engine reads
exactly the keys `symbol`, `value` and `chain` of each asset dict
(`rebalance_engine.py`, `_calculate_current_allocations`,
`_generate_recommendations`). -/
structure EngineAsset where
  symbol : String
  chain : String
  value : ℚ
  deriving DecidableEq

/-- Dataclass `RebalanceRecommendation` from `rebalance_engine.py`.
The free-text `reason` field is omitted (it is never read back). -/
structure RebalanceRecommendation where
  from_asset : String
  to_asset : String
  from_chain : String
  to_chain : String
  amount : ℚ
  percentage : ℚ
  priority : Nat
  estimated_gas : ℚ
  estimated_slippage : ℚ
  deriving DecidableEq

/-- Lookup in an insertion-ordered association list with default `d`,
modelling Python `dict.get(k, d)`. -/
def dictGet (m : List (String × ℚ)) (k : String) (d : ℚ) : ℚ :=
  match m.find? (fun p => p.1 == k) with
  | some p => p.2
  | none => d

/-- Store `k ↦ v` in an insertion-ordered association list: update the
entry in place when the key exists, append otherwise, modelling Python
dict assignment. -/
def dictSet (m : List (String × ℚ)) (k : String) (v : ℚ) : List (String × ℚ) :=
  if m.any (fun p => p.1 == k) then m.map (fun p => if p.1 == k then (k, v) else p)
  else m ++ [(k, v)]

/-- The constant `DEFAULT_TARGET_ALLOCATIONS` of `RebalanceEngine`,
in its Python insertion order. -/
def DEFAULT_TARGET_ALLOCATIONS : List (String × ℚ) :=
  [("ETH", 25), ("BTC", 20), ("USDC", 15), ("MATIC", 10), ("LINK", 10), ("BNB", 10),
   ("OTHER", 10)]

/-- Method `_calculate_current_allocations`: per-symbol allocation
percentages, with symbols below `MIN_ASSET_ALLOCATION = 2` that are not
in the target table folded into the `OTHER` bucket.  Returns the empty
dict when the total value is `0`. -/
def calculate_current_allocations (assets : List EngineAsset) : List (String × ℚ) :=
  let total_value := (assets.map (fun a => a.value)).sum
  if total_value = 0 then []
  else
    assets.foldl (fun allocations a =>
      let allocation := a.value / total_value * 100
      if allocation < 2 ∧ ¬ (DEFAULT_TARGET_ALLOCATIONS.any (fun p => p.1 == a.symbol)) then
        dictSet allocations "OTHER" (dictGet allocations "OTHER" 0 + allocation)
      else
        dictSet allocations a.symbol allocation) []

/-- Method `_calculate_allocation_deviations`: for every symbol of the
target table, current allocation (defaulting to `0`) minus target. -/
def calculate_allocation_deviations (current_allocations : List (String × ℚ)) :
    List (String × ℚ) :=
  DEFAULT_TARGET_ALLOCATIONS.map (fun st => (st.1, dictGet current_allocations st.1 0 - st.2))

/-- Method `_find_asset_by_symbol`. -/
def find_asset_by_symbol (assets : List EngineAsset) (symbol : String) : Option EngineAsset :=
  assets.find? (fun a => a.symbol == symbol)

/-- Method `_get_preferred_chain_for_asset` with its hardcoded
`chain_preferences` table. -/
def get_preferred_chain_for_asset (asset_symbol : String) (preferred_chain : String) : String :=
  if asset_symbol == "ETH" then "ethereum"
  else if asset_symbol == "USDC" then "ethereum"
  else if asset_symbol == "MATIC" then "polygon"
  else if asset_symbol == "BNB" then "bsc"
  else if asset_symbol == "LINK" then "ethereum"
  else if asset_symbol == "BTC" then "ethereum"
  else preferred_chain

/-- Lookup in the hardcoded `base_costs` dict of `_estimate_gas_cost`,
default `10.0`. -/
def base_costs_get (chain : String) : ℚ :=
  if chain == "ethereum" then 15
  else if chain == "polygon" then 1/2
  else if chain == "bsc" then 1
  else if chain == "arbitrum" then 2
  else if chain == "optimism" then 2
  else 10

/-- Method `_estimate_gas_cost`: the destination cost is zeroed for a
same-chain trade and a cross-chain trade doubles the total. -/
def estimate_gas_cost (from_chain to_chain : String) : ℚ :=
  let from_cost := base_costs_get from_chain
  let to_cost := if to_chain ≠ from_chain then base_costs_get to_chain else 0
  let cross_chain_multiplier : ℚ := if from_chain ≠ to_chain then 2 else 1
  (from_cost + to_cost) * cross_chain_multiplier

/-- Method `_estimate_slippage`: step function of the trade amount. -/
def estimate_slippage (trade_amount : ℚ) : ℚ :=
  if trade_amount < 100 then 1/10
  else if trade_amount < 1000 then 3/10
  else if trade_amount < 10000 then 1/2
  else 1

/-- Body of the nested pair loop in `_generate_recommendations`: produce
the recommendation for one (over-allocated, under-allocated) deviation
pair, or `none` when the trade is below `1` percentage point or the
over-allocated symbol has no matching asset in the portfolio. -/
def recommendation_for_pair (assets : List EngineAsset)
    (over under : String × ℚ) : Option RebalanceRecommendation :=
  let trade_percentage := min (|over.2|) (|under.2|) / 2
  if trade_percentage < 1 then none
  else
    match find_asset_by_symbol assets over.1 with
    | none => none
    | some from_asset =>
      let trade_amount := from_asset.value * trade_percentage / 100
      let from_chain := from_asset.chain
      let to_chain := get_preferred_chain_for_asset under.1 from_chain
      let priority : Nat := if 10 < trade_percentage then 1 else if 5 < trade_percentage then 2 else 3
      some { from_asset := over.1
             to_asset := under.1
             from_chain := from_chain
             to_chain := to_chain
             amount := trade_amount
             percentage := trade_percentage
             priority := priority
             estimated_gas := estimate_gas_cost from_chain to_chain
             estimated_slippage := estimate_slippage trade_amount }

/-- Preorder realising the Python sort key `(x.priority, -x.percentage)`
of `recommendations.sort` in `_generate_recommendations`. -/
def rec_sort_rel (a b : RebalanceRecommendation) : Prop :=
  a.priority < b.priority ∨ (a.priority = b.priority ∧ b.percentage ≤ a.percentage)

instance : DecidableRel rec_sort_rel := fun a b =>
  inferInstanceAs (Decidable
    (a.priority < b.priority ∨ (a.priority = b.priority ∧ b.percentage ≤ a.percentage)))

instance : IsTotal RebalanceRecommendation rec_sort_rel := by
  constructor
  intro a b
  unfold rec_sort_rel
  rcases Nat.lt_trichotomy a.priority b.priority with h | h | h
  · exact Or.inl (Or.inl h)
  · rcases le_total b.percentage a.percentage with hp | hp
    · exact Or.inl (Or.inr ⟨h, hp⟩)
    · exact Or.inr (Or.inr ⟨h.symm, hp⟩)
  · exact Or.inr (Or.inl h)

instance : IsTrans RebalanceRecommendation rec_sort_rel := by
  constructor
  intro a b c hab hbc
  unfold rec_sort_rel at hab hbc ⊢
  rcases hab with h1 | ⟨e1, p1⟩
  · rcases hbc with h2 | ⟨e2, p2⟩
    · exact Or.inl (h1.trans h2)
    · exact Or.inl (by omega)
  · rcases hbc with h2 | ⟨e2, p2⟩
    · exact Or.inl (by omega)
    · exact Or.inr ⟨e1.trans e2, p2.trans p1⟩

/-- Method `_generate_recommendations`: pair every over-allocated symbol
with every under-allocated one, sort by `(priority, -percentage)` and
keep the first `5`.  Python `list.sort` is a stable sort and is modelled
by the (also stable) insertion sort.  The `current_allocations` argument
is passed by the caller but never read, as in the source. -/
def _generate_recommendations (assets : List EngineAsset)
    (current_allocations : List (String × ℚ)) (deviations : List (String × ℚ)) :
    List RebalanceRecommendation :=
  let over_allocated := deviations.filter (fun p => decide (5 < p.2))
  let under_allocated := deviations.filter (fun p => decide (p.2 < -5))
  if over_allocated.isEmpty ∨ under_allocated.isEmpty then []
  else
    let recommendations := over_allocated.flatMap (fun o =>
      under_allocated.filterMap (fun u => recommendation_for_pair assets o u))
    (recommendations.insertionSort rec_sort_rel).take 5

/-- Method `evaluate_rebalance_need`: returns the pair
`(rebalance_needed, recommendations)`; an empty asset list short-circuits
to `(false, [])`. -/
def evaluate_rebalance_need (assets : List EngineAsset) :
    Bool × List RebalanceRecommendation :=
  if assets.isEmpty then (false, [])
  else
    let current_allocations := calculate_current_allocations assets
    let deviations := calculate_allocation_deviations current_allocations
    let recommendations := _generate_recommendations assets current_allocations deviations
    let rebalance_needed := deviations.any (fun p => decide (5 < |p.2|))
    (rebalance_needed, recommendations)

/-- Outcome of one call to the trade-execution collaborator
(`_execute_single_trade` in `rebalance_engine.py`); the randomized demo
implementation is abstracted into this explicit input. -/
inductive TradeOutcome where
  | success (tx_hash : String) (gas_used gas_cost : ℚ)
  | failure (error : String)
  deriving DecidableEq

/-- Dataclass `RebalanceTransaction` from `rebalance_engine.py`
(the timestamp field is omitted). -/
structure RebalanceTransaction where
  tx_hash : Option String
  from_asset : String
  to_asset : String
  amount : ℚ
  chain : String
  status : String
  gas_used : ℚ
  gas_cost : ℚ
  deriving DecidableEq

/-- Summary sub-dict of the result of `execute_rebalance`. -/
structure RebalanceSummary where
  total_trades : Nat
  successful_trades : Nat
  failed_trades : Nat
  success_rate : ℚ
  total_gas_used : ℚ
  total_gas_cost : ℚ
  deriving DecidableEq

/-- Result dict of `execute_rebalance` (the timestamp field is omitted). -/
structure RunResult where
  success : Bool
  summary : RebalanceSummary
  transactions : List RebalanceTransaction
  gas_used : ℚ
  total_cost : ℚ
  deriving DecidableEq

/-- Accumulator of the execution loop of `execute_rebalance`. -/
structure ExecAcc where
  transactions : List RebalanceTransaction
  total_gas_used : ℚ
  total_gas_cost : ℚ
  successful_trades : Nat
  failed_trades : Nat
  deriving DecidableEq

/-- One iteration of the execution loop of `execute_rebalance`: record a
confirmed transaction and accumulate gas on success, a failed
transaction (without transaction hash) on failure. -/
def execute_step (acc : ExecAcc) (rec : RebalanceRecommendation)
    (outcome : TradeOutcome) : ExecAcc :=
  match outcome with
  | .success tx_hash gas_used gas_cost =>
    { acc with
      successful_trades := acc.successful_trades + 1
      total_gas_used := acc.total_gas_used + gas_used
      total_gas_cost := acc.total_gas_cost + gas_cost
      transactions := acc.transactions ++
        [{ tx_hash := some tx_hash
           from_asset := rec.from_asset
           to_asset := rec.to_asset
           amount := rec.amount
           chain := rec.from_chain
           status := "confirmed"
           gas_used := gas_used
           gas_cost := gas_cost }] }
  | .failure _ =>
    { acc with
      failed_trades := acc.failed_trades + 1
      transactions := acc.transactions ++
        [{ tx_hash := none
           from_asset := rec.from_asset
           to_asset := rec.to_asset
           amount := rec.amount
           chain := rec.from_chain
           status := "failed"
           gas_used := 0
           gas_cost := 0 }] }

/-- Method `execute_rebalance`: run the recommendations sequentially
against the trade collaborator (whose outcome for the i-th trade is
`outcomes i`) and aggregate the run-level statistics.  Note
`success := successful_trades > 0` and
`success_rate := successful/total*100` guarded by a non-empty list. -/
def execute_rebalance (recommendations : List RebalanceRecommendation)
    (outcomes : Nat → TradeOutcome) : RunResult :=
  let acc := recommendations.enum.foldl
    (fun acc p => execute_step acc p.2 (outcomes p.1)) ⟨[], 0, 0, 0, 0⟩
  { success := decide (0 < acc.successful_trades)
    summary :=
      { total_trades := recommendations.length
        successful_trades := acc.successful_trades
        failed_trades := acc.failed_trades
        success_rate :=
          if recommendations.isEmpty then 0
          else (acc.successful_trades : ℚ) / (recommendations.length : ℚ) * 100
        total_gas_used := acc.total_gas_used
        total_gas_cost := acc.total_gas_cost }
    transactions := acc.transactions
    gas_used := acc.total_gas_used
    total_cost := acc.total_gas_cost }

/-- Dataclass `Asset` from `portfolio_analyzer.py`. -/
structure PAsset where
  symbol : String
  name : String
  balance : ℚ
  chain : String
  contract_address : Option String
  price : ℚ
  value : ℚ
  change_24h : ℚ
  allocation_percentage : ℚ
  deriving DecidableEq

/-- Entry of the CoinGecko price response for one coin id
(`usd` price and `usd_24h_change`). -/
structure PriceEntry where
  usd : ℚ
  usd_24h_change : ℚ
  deriving DecidableEq

/-- Outcome of the price HTTP call in `_enrich_with_price_data`: either a
response with an HTTP status and a body mapping coin ids to prices, or a
raised exception (timeout etc.). -/
inductive PriceResult where
  | response (status : Nat) (data : List (String × PriceEntry))
  | exn
  deriving DecidableEq

/-- The `symbol_to_id` mapping of `_enrich_with_price_data`, with the
`symbol.lower()` default. -/
def symbol_to_id (symbol : String) : String :=
  if symbol == "ETH" then "ethereum"
  else if symbol == "USDC" then "usd-coin"
  else if symbol == "MATIC" then "matic-network"
  else if symbol == "BNB" then "binancecoin"
  else if symbol == "LINK" then "chainlink"
  else if symbol == "BTC" then "bitcoin"
  else if symbol == "ADA" then "cardano"
  else if symbol == "DOT" then "polkadot"
  else symbol.toLower

/-- Python `'USD' in symbol`: substring containment of `"USD"`. -/
def containsUSD (symbol : String) : Bool :=
  symbol.toList.tails.any (fun t => "USD".toList.isPrefixOf t)

/-- Per-asset update in the HTTP-200 branch of `_enrich_with_price_data`:
a symbol present in the response gets its real price and 24h change,
a symbol absent from the response gets the fallback price
`1.0 if 'USD' in symbol else 0.0`. -/
def enrich_asset (data : List (String × PriceEntry)) (a : PAsset) : PAsset :=
  match data.find? (fun p => p.1 == symbol_to_id a.symbol) with
  | some pe =>
    { a with
      price := pe.2.usd
      change_24h := pe.2.usd_24h_change
      value := a.balance * pe.2.usd }
  | none =>
    let p : ℚ := if containsUSD a.symbol then 1 else 0
    { a with price := p, value := a.balance * p }

/-- Per-asset update in the exception branch of
`_enrich_with_price_data`: an asset whose price is still `0` gets the
fallback price `1.0 if 'USD' in symbol else 100.0`. -/
def fallback_asset (a : PAsset) : PAsset :=
  if a.price = 0 then
    let p : ℚ := if containsUSD a.symbol then 1 else 100
    { a with price := p, value := a.balance * p }
  else a

/-- Method `_enrich_with_price_data`: on HTTP 200 every asset is updated
from the response (with the per-symbol fallback for absent symbols); on
a non-200 status the assets are left untouched (only an error is
logged); on an exception every asset with price `0` gets the exception
fallback. -/
def enrich_with_price_data (assets : List PAsset) (resp : PriceResult) : List PAsset :=
  match resp with
  | .response status data =>
    if status == 200 then assets.map (enrich_asset data) else assets
  | .exn => assets.map fallback_asset

/-- Allocation-percentage assignment inside `_calculate_portfolio_metrics`
(`portfolio_analyzer.py`): the total value is the sum of the asset
values, and each asset gets
`value / total * 100 if total > 0 else 0`. -/
def calculate_portfolio_metrics_assets (assets : List PAsset) : List PAsset :=
  let total_value := (assets.map (fun a => a.value)).sum
  assets.map (fun a =>
    { a with allocation_percentage :=
        if 0 < total_value then a.value / total_value * 100 else 0 })

/-- Errors raised by the motor/pymongo driver, as discriminated by
`retry_on_failure` in `mongo_client.py`: the four exception types of its
`except` tuple plus a catch-all for any other exception. -/
inductive MongoError where
  | connectionFailure
  | serverSelectionTimeout
  | networkTimeout
  | operationFailure
  | unexpected (msg : String)
  deriving DecidableEq

/-- The retryable exception tuple of `retry_on_failure`
(`ConnectionFailure, ServerSelectionTimeoutError, NetworkTimeout,
OperationFailure`); any other exception is re-raised immediately. -/
def isRetryable : MongoError → Bool
  | .connectionFailure => true
  | .serverSelectionTimeout => true
  | .networkTimeout => true
  | .operationFailure => true
  | .unexpected _ => false

/-- Trace of one run of the `retry_on_failure` wrapper: the final result,
the number of attempts made, and the backoff waits that were slept. -/
structure RetryTrace (α : Type) where
  result : Except MongoError α
  attempts_made : Nat
  waits : List ℚ

/-- Loop of `retry_on_failure`, structurally recursive in the number of
remaining attempts: a retryable error before the last attempt sleeps
`delay * backoff_factor ^ attempt` and retries; a retryable error on the
last attempt breaks and re-raises it; a non-retryable error is re-raised
immediately. -/
def retry_run (op : Nat → Except MongoError α) (delay backoff_factor : ℚ) :
    Nat → Nat → RetryTrace α
  | _, 0 => ⟨.error (.unexpected "no attempts"), 0, []⟩
  | attempt, 1 =>
    match op attempt with
    | .ok a => ⟨.ok a, 1, []⟩
    | .error e => ⟨.error e, 1, []⟩
  | attempt, n + 2 =>
    match op attempt with
    | .ok a => ⟨.ok a, 1, []⟩
    | .error e =>
      if isRetryable e then
        let t := retry_run op delay backoff_factor (attempt + 1) (n + 1)
        ⟨t.result, t.attempts_made + 1, delay * backoff_factor ^ attempt :: t.waits⟩
      else ⟨.error e, 1, []⟩

/-- Decorator `retry_on_failure(max_retries, delay, backoff_factor)`
applied to an operation whose outcome on the i-th call is `op i`. -/
def retry_on_failure (max_retries : Nat) (delay backoff_factor : ℚ)
    (op : Nat → Except MongoError α) : RetryTrace α :=
  retry_run op delay backoff_factor 0 max_retries

/-- Method `safe_log_rebalancer_activity`: call the retry-decorated
`log_rebalancer_activity` (decorated with `max_retries=3, delay=1.0` and
the default `backoff_factor=2.0`) and swallow any exception into `None`. -/
def safe_log_rebalancer_activity (op : Nat → Except MongoError String) : Option String :=
  match (retry_on_failure 3 1 2 op).result with
  | .ok s => some s
  | .error _ => none

/-! Concrete inputs used to instantiate and to refute claims. -/

/-- Snapshot of spec Scenario A: one asset at 90% allocation (ETH,
target 25%), one at 5% (BTC, target 20%), plus a 5% unlisted filler so
the allocations are exactly 90/5/5. -/
def scenarioA : List EngineAsset :=
  [⟨"ETH", "ethereum", 90⟩, ⟨"BTC", "ethereum", 5⟩, ⟨"SHIB", "ethereum", 5⟩]

/-- Deviations computed by the engine on `scenarioA`. -/
def scenarioA_deviations : List (String × ℚ) :=
  calculate_allocation_deviations (calculate_current_allocations scenarioA)

/-- The ETH → BTC recommendation the engine produces on `scenarioA`. -/
def recETHBTC : RebalanceRecommendation :=
  { from_asset := "ETH"
    to_asset := "BTC"
    from_chain := "ethereum"
    to_chain := "ethereum"
    amount := 27/4
    percentage := 15/2
    priority := 2
    estimated_gas := 15
    estimated_slippage := 1/10 }

/-- An un-priced ETH holding as produced by `_fetch_multi_chain_portfolio`
(price and value still 0 before enrichment). -/
def ethPAsset : PAsset :=
  { symbol := "ETH"
    name := "Ethereum"
    balance := 1
    chain := "ethereum"
    contract_address := none
    price := 0
    value := 0
    change_24h := 0
    allocation_percentage := 0 }

/-- A price response that contains bitcoin but not ethereum. -/
def btcPriceData : List (String × PriceEntry) := [("bitcoin", ⟨50000, 1⟩)]

/-- Two priced assets with total value 100, for instantiating the
allocation-sum invariant. -/
def demoPAssets : List PAsset :=
  [{ symbol := "ETH", name := "Ethereum", balance := 2, chain := "ethereum",
     contract_address := none, price := 30, value := 60, change_24h := 1,
     allocation_percentage := 0 },
   { symbol := "USDC", name := "USD Coin", balance := 40, chain := "ethereum",
     contract_address := none, price := 1, value := 40, change_24h := 0,
     allocation_percentage := 0 }]

/-! Helper lemmas shared by the claim theorems. -/

/-- Membership in the generated recommendation list comes from one
(over-allocated, under-allocated) deviation pair. -/
lemma mem_generate_recommendations {assets : List EngineAsset}
    {cur devs : List (String × ℚ)} {r : RebalanceRecommendation}
    (h : r ∈ _generate_recommendations assets cur devs) :
    ∃ over under : String × ℚ, over ∈ devs ∧ 5 < over.2 ∧ under ∈ devs ∧ under.2 < -5 ∧
      recommendation_for_pair assets over under = some r := by
  simp only [_generate_recommendations] at h
  split at h
  · simp at h
  · have h1 : r ∈ List.insertionSort rec_sort_rel
        ((devs.filter (fun p => decide (5 < p.2))).flatMap (fun o =>
          (devs.filter (fun p => decide (p.2 < -5))).filterMap
            (fun u => recommendation_for_pair assets o u))) :=
      List.take_subset 5 _ h
    have h2 := (List.mem_insertionSort rec_sort_rel).1 h1
    rw [List.mem_flatMap] at h2
    obtain ⟨o, ho, hu⟩ := h2
    rw [List.mem_filterMap] at hu
    obtain ⟨u, hu, he⟩ := hu
    rw [List.mem_filter] at ho hu
    exact ⟨o, u, ho.1, by simpa using ho.2, hu.1, by simpa using hu.2, he⟩

/-- Inversion of `recommendation_for_pair`: a produced recommendation
records the pair's symbols, the halved-minimum trade percentage (at
least 1), and sizes the amount from the matched source asset. -/
lemma recommendation_for_pair_eq_some {assets : List EngineAsset}
    {over under : String × ℚ} {r : RebalanceRecommendation}
    (h : recommendation_for_pair assets over under = some r) :
    ∃ fa, find_asset_by_symbol assets over.1 = some fa ∧
      1 ≤ min (|over.2|) (|under.2|) / 2 ∧
      r.from_asset = over.1 ∧ r.to_asset = under.1 ∧
      r.percentage = min (|over.2|) (|under.2|) / 2 ∧
      r.amount = fa.value * (min (|over.2|) (|under.2|) / 2) / 100 := by
  simp only [recommendation_for_pair] at h
  split at h
  · exact absurd h (by simp)
  · rename_i hge
    split at h
    · exact absurd h (by simp)
    · rename_i fa hfa
      obtain rfl : _ = r := Option.some.inj h
      exact ⟨fa, hfa, le_of_not_lt hge, rfl, rfl, rfl, rfl⟩

/-- An asset found by `_find_asset_by_symbol` is in the list and carries
the searched symbol. -/
lemma find_asset_by_symbol_eq_some {assets : List EngineAsset} {s : String}
    {fa : EngineAsset} (h : find_asset_by_symbol assets s = some fa) :
    fa ∈ assets ∧ fa.symbol = s := by
  unfold find_asset_by_symbol at h
  refine ⟨List.mem_of_find?_eq_some h, ?_⟩
  have := List.find?_some h
  simpa using this

/-- The recommendation list of `evaluate_rebalance_need` is either the
early-exit empty list or a `_generate_recommendations` output. -/
lemma evaluate_rebalance_need_snd_cases (assets : List EngineAsset) :
    (evaluate_rebalance_need assets).2 = [] ∨
    (evaluate_rebalance_need assets).2 =
      _generate_recommendations assets (calculate_current_allocations assets)
        (calculate_allocation_deviations (calculate_current_allocations assets)) := by
  unfold evaluate_rebalance_need
  split
  · exact Or.inl rfl
  · exact Or.inr rfl

/-! Claim theorems. -/

/-- C1, counterexample: contrary to the claim, `execute_rebalance` on the
empty recommendation list returns `success = false` (with
`total_trades = 0`), because the code computes
`success = successful_trades > 0`. -/
theorem c1_counterexample :
    (execute_rebalance [] (fun _ => TradeOutcome.failure "error")).success = false ∧
    (execute_rebalance [] (fun _ => TradeOutcome.failure "error")).summary.total_trades = 0 :=
  ⟨rfl, rfl⟩

/-- C1, amended: for the empty recommendation list `execute_rebalance`
returns `success == false` and `total_trades == 0`; the success flag is
therefore the same as for a batch in which every attempted trade failed,
so a no-op run is not distinguished from an all-failed batch. -/
theorem c1_empty_run_not_successful :
    ∀ outcomes : Nat → TradeOutcome,
      (execute_rebalance [] outcomes).success = false ∧
      (execute_rebalance [] outcomes).summary.total_trades = 0 ∧
      ∀ (r : RebalanceRecommendation) (e : String),
        (execute_rebalance [r] (fun _ => TradeOutcome.failure e)).success = false :=
  fun _ => ⟨rfl, rfl, fun _ _ => rfl⟩

/-- C4, counterexample: on the Scenario A snapshot (one asset at 90%
with target 25%, one at 5% with target 20%) the engine does report
`needed = true`, but no produced recommendation from the 90% asset to
the 5% asset has priority 1 (high): the trade percentage is
`min(65, 15) / 2 = 7.5 ≤ 10`, so its priority is 2. -/
theorem c4_counterexample :
    (evaluate_rebalance_need scenarioA).1 = true ∧
    ∀ r ∈ (evaluate_rebalance_need scenarioA).2,
      ¬ (r.from_asset = "ETH" ∧ r.to_asset = "BTC" ∧ r.priority = 1) := by
  decide

/-- C4, amended: on the Scenario A snapshot `evaluate_rebalance_need`
returns `needed = true` and at least one recommendation from the 90%
asset (ETH) to the 5% asset (BTC), with priority medium (value 2). -/
theorem c4_scenarioA_medium_priority :
    (evaluate_rebalance_need scenarioA).1 = true ∧
    ∃ r ∈ (evaluate_rebalance_need scenarioA).2,
      r.from_asset = "ETH" ∧ r.to_asset = "BTC" ∧ r.priority = 2 := by
  decide

/-- C8: the estimated gas cost is
`(base_cost[from] + base_cost[to]) * 2` for a cross-chain trade and
`base_cost[from]` (destination cost zeroed, multiplier 1) for a
same-chain trade; in particular ethereum → ethereum costs 15. -/
theorem c8_gas_cost (from_chain to_chain : String) :
    (from_chain ≠ to_chain →
      estimate_gas_cost from_chain to_chain =
        (base_costs_get from_chain + base_costs_get to_chain) * 2) ∧
    estimate_gas_cost from_chain from_chain = base_costs_get from_chain ∧
    estimate_gas_cost "ethereum" "ethereum" = 15 := by
  refine ⟨?_, ?_, by decide⟩
  · intro h
    unfold estimate_gas_cost
    rw [if_pos (Ne.symm h), if_pos h]
  · unfold estimate_gas_cost
    rw [if_neg (by simp), if_neg (by simp)]
    ring

/-- C8, witness: an ethereum → polygon trade is costed at the doubled
sum of both base costs. -/
theorem c8_gas_cost_witness :
    estimate_gas_cost "ethereum" "polygon" =
      (base_costs_get "ethereum" + base_costs_get "polygon") * 2 :=
  (c8_gas_cost "ethereum" "polygon").1 (by decide)

/-- C2: the recommendation list returned by `evaluate_rebalance_need` is
pairwise ordered by the key (priority ascending, trade percentage
descending) and contains at most 5 entries. -/
theorem c2_recommendations_sorted_and_bounded (assets : List EngineAsset) :
    List.Pairwise
      (fun a b : RebalanceRecommendation =>
        a.priority < b.priority ∨ (a.priority = b.priority ∧ b.percentage ≤ a.percentage))
      (evaluate_rebalance_need assets).2 ∧
    (evaluate_rebalance_need assets).2.length ≤ 5 := by
  have key : ∀ (as : List EngineAsset) (cur devs : List (String × ℚ)),
      List.Pairwise rec_sort_rel (_generate_recommendations as cur devs) ∧
      (_generate_recommendations as cur devs).length ≤ 5 := by
    intro as cur devs
    simp only [_generate_recommendations]
    split
    · exact ⟨List.Pairwise.nil, by simp⟩
    · constructor
      · exact ((List.sorted_insertionSort rec_sort_rel _).sublist (List.take_sublist 5 _))
      · rw [List.length_take]
        exact min_le_left _ _
  rcases evaluate_rebalance_need_snd_cases assets with h | h
  · rw [h]; exact ⟨List.Pairwise.nil, by simp⟩
  · rw [h]; exact key assets _ _

/-- C3, counterexample: for the empty snapshot `evaluate_rebalance_need`
short-circuits to `(false, [])` even though every symbol of the target
table then deviates by its full target (e.g. ETH by 25 > 5 percentage
points), so `needed` is not equivalent to "some target symbol deviates
by more than 5 points". -/
theorem c3_counterexample :
    evaluate_rebalance_need [] = (false, []) ∧
    ∃ p ∈ DEFAULT_TARGET_ALLOCATIONS,
      5 < |dictGet (calculate_current_allocations []) p.1 0 - p.2| := by
  decide

/-- C3, amended: for every snapshot with a non-empty asset list,
`needed == true` iff some symbol of the target table deviates from its
target by strictly more than 5 percentage points (symbols absent from
the computed current allocations counting as 0%); and whenever every
deviation is within the threshold the result is exactly
`(false, [])` — the empty asset list returns `(false, [])`
unconditionally. -/
theorem c3_needed_iff_deviation (assets : List EngineAsset) :
    (assets ≠ [] →
      ((evaluate_rebalance_need assets).1 = true ↔
        ∃ p ∈ DEFAULT_TARGET_ALLOCATIONS,
          5 < |dictGet (calculate_current_allocations assets) p.1 0 - p.2|)) ∧
    ((∀ p ∈ DEFAULT_TARGET_ALLOCATIONS,
        |dictGet (calculate_current_allocations assets) p.1 0 - p.2| ≤ 5) →
      evaluate_rebalance_need assets = (false, [])) := by
  constructor
  · intro hne
    unfold evaluate_rebalance_need
    rw [if_neg (by simpa [List.isEmpty_iff] using hne)]
    simp [calculate_allocation_deviations, List.any_map, List.any_eq_true, Function.comp]
  · intro hall
    simp only [evaluate_rebalance_need]
    split
    · rfl
    · have hfalse : (calculate_allocation_deviations
          (calculate_current_allocations assets)).any (fun p => decide (5 < |p.2|)) = false := by
        simp only [calculate_allocation_deviations, List.any_map, List.any_eq_false,
          Function.comp, decide_eq_true_eq]
        intro st hst
        exact not_lt.2 (hall st hst)
      have hrecs : _generate_recommendations assets (calculate_current_allocations assets)
          (calculate_allocation_deviations (calculate_current_allocations assets)) = [] := by
        unfold _generate_recommendations
        rw [if_pos]
        left
        rw [List.isEmpty_iff, List.filter_eq_nil_iff]
        intro p hp
        simp only [calculate_allocation_deviations, List.mem_map] at hp
        obtain ⟨st, hst, rfl⟩ := hp
        simpa using not_lt.2 ((le_abs_self _).trans (hall st hst))
      rw [hfalse, hrecs]

/-- C3, witness: the amended equivalence instantiated on the non-empty
Scenario A snapshot. -/
theorem c3_needed_iff_deviation_witness :
    (evaluate_rebalance_need scenarioA).1 = true ↔
      ∃ p ∈ DEFAULT_TARGET_ALLOCATIONS,
        5 < |dictGet (calculate_current_allocations scenarioA) p.1 0 - p.2| :=
  (c3_needed_iff_deviation scenarioA).1 (by decide)

/-- C5, counterexample: on Scenario A the ETH → BTC recommendation has
trade percentage 7.5 but amount `90 * 7.5 / 100 = 6.75`, the percentage
of the source asset's value, not `100 * 7.5 / 100 = 7.5`, the
percentage of total portfolio value the claim requires. -/
theorem c5_counterexample :
    ∃ r ∈ (evaluate_rebalance_need scenarioA).2,
      r.from_asset = "ETH" ∧ r.to_asset = "BTC" ∧ r.percentage = 15/2 ∧
      r.amount = 27/4 ∧
      (scenarioA.map (fun a => a.value)).sum * r.percentage / 100 = 15/2 ∧
      r.amount ≠ (scenarioA.map (fun a => a.value)).sum * r.percentage / 100 := by
  decide

/-- C5, amended: every generated recommendation's trade percentage is
`min(|over_dev|, |under_dev|) / 2` for some over/under deviation pair,
pairs below 1 percentage point are skipped (so the percentage is at
least 1), and the trade amount equals that percentage of the source
asset's value (not of total portfolio value). -/
theorem c5_trade_sizing (assets : List EngineAsset) (cur devs : List (String × ℚ))
    (r : RebalanceRecommendation) (h : r ∈ _generate_recommendations assets cur devs) :
    1 ≤ r.percentage ∧
    (∃ over ∈ devs, ∃ under ∈ devs, 5 < over.2 ∧ under.2 < -5 ∧
      r.percentage = min (|over.2|) (|under.2|) / 2) ∧
    ∃ fa ∈ assets, fa.symbol = r.from_asset ∧ r.amount = fa.value * r.percentage / 100 := by
  obtain ⟨over, under, hov, hov5, hun, hun5, hsome⟩ := mem_generate_recommendations h
  obtain ⟨fa, hfa, h1, hfrom, hto, hpct, hamt⟩ := recommendation_for_pair_eq_some hsome
  obtain ⟨hmem, hsym⟩ := find_asset_by_symbol_eq_some hfa
  refine ⟨hpct ▸ h1, ⟨over, hov, under, hun, hov5, hun5, hpct⟩, fa, hmem, ?_, ?_⟩
  · rw [hsym, hfrom]
  · rw [hamt, hpct]

/-- C5, witness: the sizing facts instantiated on the concrete
ETH → BTC recommendation of Scenario A. -/
theorem c5_trade_sizing_witness :
    1 ≤ recETHBTC.percentage ∧
    (∃ over ∈ scenarioA_deviations, ∃ under ∈ scenarioA_deviations,
      5 < over.2 ∧ under.2 < -5 ∧
      recETHBTC.percentage = min (|over.2|) (|under.2|) / 2) ∧
    ∃ fa ∈ scenarioA, fa.symbol = recETHBTC.from_asset ∧
      recETHBTC.amount = fa.value * recETHBTC.percentage / 100 :=
  c5_trade_sizing scenarioA (calculate_current_allocations scenarioA)
    scenarioA_deviations recETHBTC (by decide)

/-- C10: every recommendation returned by `evaluate_rebalance_need` has
a `from_asset` that is the symbol of an asset actually present in the
snapshot; consequently an over-allocated bucket with no matching asset
(in particular the synthetic OTHER bucket, when no asset is literally
named OTHER) never produces a recommendation. -/
theorem c10_from_asset_present (assets : List EngineAsset)
    (r : RebalanceRecommendation) (h : r ∈ (evaluate_rebalance_need assets).2) :
    (∃ a ∈ assets, a.symbol = r.from_asset) ∧
    ((∀ a ∈ assets, a.symbol ≠ "OTHER") → r.from_asset ≠ "OTHER") := by
  have hmem : ∃ a ∈ assets, a.symbol = r.from_asset := by
    rcases evaluate_rebalance_need_snd_cases assets with hc | hc
    · rw [hc] at h; simp at h
    · rw [hc] at h
      obtain ⟨over, under, _, _, _, _, hsome⟩ := mem_generate_recommendations h
      obtain ⟨fa, hfa, _, hfrom, _, _, _⟩ := recommendation_for_pair_eq_some hsome
      obtain ⟨hin, hsym⟩ := find_asset_by_symbol_eq_some hfa
      exact ⟨fa, hin, by rw [hsym, hfrom]⟩
  refine ⟨hmem, ?_⟩
  intro hno heq
  obtain ⟨a, ha, hs⟩ := hmem
  exact hno a ha (hs.trans heq)

/-- C10, witness: instantiated on Scenario A and its concrete ETH → BTC
recommendation. -/
theorem c10_from_asset_present_witness :
    (∃ a ∈ scenarioA, a.symbol = recETHBTC.from_asset) ∧
    ((∀ a ∈ scenarioA, a.symbol ≠ "OTHER") → recETHBTC.from_asset ≠ "OTHER") :=
  c10_from_asset_present scenarioA recETHBTC (by decide)

/-- C6, counterexample: an operation that keeps raising
`OperationFailure` — the pymongo error of a malformed query, a
non-transient error — is nevertheless retried: the wrapper makes 3
attempts with backoff waits `[1, 2]` instead of propagating after a
single attempt. -/
theorem c6_counterexample :
    retry_on_failure 3 1 2
        (fun _ => (Except.error MongoError.operationFailure : Except MongoError String)) =
      ⟨Except.error MongoError.operationFailure, 3, [1, 2]⟩ ∧
    (retry_on_failure 3 1 2
        (fun _ => (Except.error MongoError.operationFailure : Except MongoError String))).attempts_made ≠ 1 :=
  ⟨rfl, by decide⟩

/-- C6, amended: persistence writes are retried with exponential backoff
(wait `delay * backoff_factor ^ attempt`, 3 attempts) on every error of
the decorator's except-tuple — `ConnectionFailure`,
`ServerSelectionTimeoutError`, `NetworkTimeout` AND `OperationFailure`
(so a malformed query is retried too, not propagated immediately);
only errors outside that tuple propagate after a single attempt; in
both cases the safe wrapper swallows the final failure into `none`. -/
theorem c6_retry_policy :
    (∀ e : MongoError, isRetryable e = true →
      retry_on_failure 3 1 2 (fun _ => (Except.error e : Except MongoError String)) =
        ⟨Except.error e, 3, [1 * 2 ^ (0 : Nat), 1 * 2 ^ (1 : Nat)]⟩ ∧
      safe_log_rebalancer_activity (fun _ => Except.error e) = none) ∧
    (∀ msg : String,
      retry_on_failure 3 1 2
          (fun _ => (Except.error (MongoError.unexpected msg) : Except MongoError String)) =
        ⟨Except.error (MongoError.unexpected msg), 1, []⟩ ∧
      safe_log_rebalancer_activity (fun _ => Except.error (MongoError.unexpected msg)) = none) ∧
    isRetryable MongoError.operationFailure = true := by
  refine ⟨?_, ?_, rfl⟩
  · intro e he
    cases e
    · exact ⟨rfl, rfl⟩
    · exact ⟨rfl, rfl⟩
    · exact ⟨rfl, rfl⟩
    · exact ⟨rfl, rfl⟩
    · exact absurd he (by simp [isRetryable])
  · intro msg
    exact ⟨rfl, rfl⟩

/-- C6, witness: the retry schedule and the swallowing wrapper on a
transient `ConnectionFailure`. -/
theorem c6_retry_policy_witness :
    retry_on_failure 3 1 2
        (fun _ => (Except.error MongoError.connectionFailure : Except MongoError String)) =
      ⟨Except.error MongoError.connectionFailure, 3, [1 * 2 ^ (0 : Nat), 1 * 2 ^ (1 : Nat)]⟩ ∧
    safe_log_rebalancer_activity (fun _ => Except.error MongoError.connectionFailure) = none :=
  c6_retry_policy.1 MongoError.connectionFailure rfl

/-- C7, counterexample: when the price lookup as a whole succeeds
(HTTP 200) but ETH is absent from the body, ETH is priced `0.0` — not a
non-zero conservative placeholder; on a non-2xx response no fallback at
all is applied (the asset is returned unchanged); and the
whole-lookup-failure fallback prices the same asset at `100.0`, so the
per-symbol rule is not the same rule. -/
theorem c7_counterexample :
    (enrich_with_price_data [ethPAsset] (.response 200 btcPriceData)).map
        (fun a => a.price) = [0] ∧
    enrich_with_price_data [ethPAsset] (.response 500 btcPriceData) = [ethPAsset] ∧
    (enrich_with_price_data [ethPAsset] PriceResult.exn).map (fun a => a.price) = [100] :=
  ⟨rfl, rfl, rfl⟩

/-- C7, amended: on an HTTP-200 response every asset is updated
per-symbol — a present symbol gets its real price, an absent symbol gets
`1.0` when its symbol contains USD and `0.0` otherwise; when the lookup
as a whole raises, every asset whose price is still 0 gets `1.0`
(USD symbols) or `100.0`, and already-priced assets are untouched; on a
non-2xx response no fallback is applied at all. -/
theorem c7_price_fallback_rules (assets : List PAsset)
    (data : List (String × PriceEntry)) (a : PAsset) (ha : a ∈ assets) :
    (enrich_asset data a ∈ enrich_with_price_data assets (.response 200 data)) ∧
    (data.find? (fun p => p.1 == symbol_to_id a.symbol) = none →
      (enrich_asset data a).price = (if containsUSD a.symbol then 1 else 0) ∧
      (enrich_asset data a).value = a.balance * (if containsUSD a.symbol then 1 else 0)) ∧
    (∀ pe, data.find? (fun p => p.1 == symbol_to_id a.symbol) = some pe →
      (enrich_asset data a).price = pe.2.usd) ∧
    (fallback_asset a ∈ enrich_with_price_data assets PriceResult.exn) ∧
    (a.price = 0 →
      (fallback_asset a).price = (if containsUSD a.symbol then 1 else 100)) ∧
    (a.price ≠ 0 → fallback_asset a = a) ∧
    ∀ status data2, status ≠ 200 →
      enrich_with_price_data assets (.response status data2) = assets := by
  refine ⟨?_, ?_, ?_, ?_, ?_, ?_, ?_⟩
  · have h : enrich_with_price_data assets (.response 200 data) =
        assets.map (enrich_asset data) := rfl
    rw [h]
    exact List.mem_map.2 ⟨a, ha, rfl⟩
  · intro hnone
    constructor <;> simp [enrich_asset, hnone]
  · intro pe hpe
    simp [enrich_asset, hpe]
  · have h : enrich_with_price_data assets PriceResult.exn = assets.map fallback_asset := rfl
    rw [h]
    exact List.mem_map.2 ⟨a, ha, rfl⟩
  · intro h0
    simp [fallback_asset, h0]
  · intro hne
    simp [fallback_asset, hne]
  · intro status data2 hstatus
    have hb : (status == 200) = false := by simpa using hstatus
    simp [enrich_with_price_data, hb]

/-- C7, witness: the per-symbol fallback applied to un-priced ETH when
only bitcoin is in the response body. -/
theorem c7_price_fallback_rules_witness :
    (enrich_asset btcPriceData ethPAsset).price =
      (if containsUSD ethPAsset.symbol then 1 else 0) ∧
    (enrich_asset btcPriceData ethPAsset).value =
      ethPAsset.balance * (if containsUSD ethPAsset.symbol then 1 else 0) :=
  (c7_price_fallback_rules [ethPAsset] btcPriceData ethPAsset (by decide)).2.1 (by decide)

/-- Sum of the per-asset allocation formula over a list of assets. -/
lemma sum_map_value_div (l : List PAsset) (T : ℚ) :
    (l.map (fun a => a.value / T * 100)).sum = (l.map (fun a => a.value)).sum / T * 100 := by
  induction l with
  | nil => simp
  | cons x xs ih => simp [ih, add_div, add_mul]

/-- C9: after metrics computation, if the total portfolio value is
strictly positive the allocation percentages sum to 100 up to ±0.01
(they sum to exactly 100 over the rationals); if the total value is 0,
every allocation percentage is 0. -/
theorem c9_allocations_sum (assets : List PAsset) :
    ((0 : ℚ) < (assets.map (fun a => a.value)).sum →
      |((calculate_portfolio_metrics_assets assets).map
          (fun a => a.allocation_percentage)).sum - 100| ≤ 1/100) ∧
    ((assets.map (fun a => a.value)).sum = 0 →
      ∀ a ∈ calculate_portfolio_metrics_assets assets, a.allocation_percentage = 0) := by
  constructor
  · intro hpos
    have hne : (assets.map (fun a => a.value)).sum ≠ 0 := ne_of_gt hpos
    simp only [calculate_portfolio_metrics_assets, List.map_map, Function.comp_def]
    simp only [if_pos hpos]
    rw [sum_map_value_div, div_self hne, one_mul]
    simp
  · intro h0 a ha
    simp only [calculate_portfolio_metrics_assets, List.mem_map] at ha
    obtain ⟨b, hb, rfl⟩ := ha
    simp [h0]

/-- C9, witness: the allocation-sum invariant on a concrete two-asset
portfolio of total value 100. -/
theorem c9_allocations_sum_witness :
    |((calculate_portfolio_metrics_assets demoPAssets).map
        (fun a => a.allocation_percentage)).sum - 100| ≤ 1/100 :=
  (c9_allocations_sum demoPAssets).1 (by decide)

end PortfolioRebalancer
